import Mathlib

set_option maxRecDepth 8000

/-!
Verification of the cohort-building core of `vantage_rwe`
(`backend/app/services/cohort_builder.py` together with the data model in
`backend/app/models/cohort.py` and the demographics helper in
`backend/app/services/omop_service.py`).

The Python code is embedded shallowly:

* the SQL-text builders (`_build_cohort_sql`, `_build_condition_sql`,
  `_build_drug_sql`, `_build_procedure_sql`, `_build_visit_sql`,
  `_build_observation_sql`, `_build_age_sql`, `_build_gender_sql`,
  the `INSERT` statement of `save_cohort_definition`) become pure
  `String`-producing functions that reproduce the Python f-strings
  character for character (including the original indentation and the
  trailing blanks present in the source);
* Python `str(i)` on integers is embedded by the verified decimal
  renderers `natToDecimal` / `intToDecimal` below;
* `build_cohort` becomes a pure function parameterised by the warehouse
  executor (`execute_query` restricted to the single `person_id` column it
  reads) and by the demographics collaborator
  (`omop_service.get_demographics_summary`); wall-clock timing is not
  modelled;
* `save_cohort_definition` becomes explicit state passing over the
  contents of the `cohort_definition` table, with `date.today()` supplied
  as an explicit argument;
* the relational meaning of the generated fragments over a small OMOP
  database model (tables `person`, `condition_occurrence`,
  `concept_ancestor`) is given by executable evaluators whose structure
  follows the emitted SQL clause by clause; SQL `DATE` comparisons on the
  inlined ISO-format date strings are modelled by lexicographic string
  comparison.
-/

/-! ## Decimal rendering of integers (Python `str`) -/

/-- Numeric value of a decimal digit character. -/
def digitVal (c : Char) : Nat := c.toNat - 48

/-- Big-endian decimal digits of a natural number, as characters;
this is what Python's `str` produces for a non-negative `int`.  The
first argument is recursion fuel: any fuel above `n` itself is enough,
and structural recursion on the fuel keeps the function
kernel-reducible. -/
def decimalDigitsAux : Nat → Nat → List Char
  | 0, _ => []
  | fuel + 1, n =>
    if n < 10 then [Nat.digitChar n]
    else decimalDigitsAux fuel (n / 10) ++ [Nat.digitChar (n % 10)]

/-- Embedding of Python `str` on a non-negative integer. -/
def natToDecimal (n : Nat) : String := String.mk (decimalDigitsAux (n + 1) n)

/-- Embedding of Python `str` on an arbitrary integer. -/
def intToDecimal : Int → String
  | Int.ofNat n => natToDecimal n
  | Int.negSucc n => "-" ++ natToDecimal (n + 1)

/-- Left fold reading a digit string back into a number. -/
def parseDecimal (l : List Char) : Nat :=
  l.foldl (fun a c => a * 10 + digitVal c) 0

/-! ## Data model (`backend/app/models/cohort.py`) -/

/-- `CriteriaType` enum. -/
inductive CriteriaType where
  | condition
  | drug
  | procedure
  | visit
  | observation
  | age
  | gender
deriving DecidableEq, Repr

/-- `OperatorType` enum (`in` is spelled `inOp` because `in` is a Lean
keyword). -/
inductive OperatorType where
  | equals
  | not_equals
  | greater_than
  | less_than
  | between
  | inOp
  | not_in
deriving DecidableEq, Repr

/-- `CriteriaDefinition` pydantic model.  The dynamically typed `value`
field is only ever rendered into SQL text; the repository uses it for
integer age values, so it is modelled as an optional integer. -/
structure CriteriaDefinition where
  id : String
  criteria_type : CriteriaType
  operator : Option OperatorType := some OperatorType.equals
  concept_ids : Option (List Int) := none
  concept_names : Option (List String) := none
  value : Option Int := none
  value_min : Option Int := none
  value_max : Option Int := none
  start_date : Option String := none
  end_date : Option String := none
  min_occurrences : Int := 1
  is_exclusion : Bool := false
deriving DecidableEq, Repr

/-- `CohortDefinition` pydantic model. -/
structure CohortDefinition where
  id : Option String := none
  name : String
  description : Option String := some ""
  inclusion_criteria : List CriteriaDefinition := []
  exclusion_criteria : List CriteriaDefinition := []
  created_at : Option String := none
  updated_at : Option String := none
  created_by : Option String := none
deriving DecidableEq, Repr

/-! ## Small string helpers shared by the builders -/

/-- Python truthiness of an `Optional[str]`: `None` and the empty string
are falsy. -/
def strTruthy : Option String → Bool
  | none => false
  | some s => !(s == "")

/-- `",".join(map(str, criteria.concept_ids or []))`. -/
def conceptIdsStr (ids : Option (List Int)) : String :=
  String.intercalate "," ((ids.getD []).map intToDecimal)

/-- `s.replace("'", "''")` — quote doubling on a free-text value.  The
pattern is the single character `'`, so the replacement is exactly a
character-level expansion. -/
def escapeQuotes (s : String) : String :=
  String.mk (s.data.foldr (fun c acc => if c = '\'' then '\'' :: '\'' :: acc else c :: acc) [])

/-! ## Criteria compilers (`cohort_builder.py`, lines 111–329)

Each builder reproduces the corresponding Python method verbatim: the
f-string literals keep the source's newlines, indentation and trailing
blanks, date filters are appended only when the optional date string is
truthy, and a `min_occurrences > 1` criterion wraps the fragment in the
`GROUP BY ... HAVING COUNT(*)` outer query. -/

/-- `_build_condition_sql`. -/
def buildConditionSql (schema : String) (c : CriteriaDefinition) : String :=
  let ids := conceptIdsStr c.concept_ids
  let sql := "\n            SELECT person_id\n            FROM " ++ schema ++ ".condition_occurrence\n            WHERE condition_concept_id IN (\n                SELECT descendant_concept_id \n                FROM " ++ schema ++ ".concept_ancestor \n                WHERE ancestor_concept_id IN (" ++ ids ++ ")\n            )\n        "
  let sql := if strTruthy c.start_date then sql ++ " AND condition_start_date >= '" ++ c.start_date.getD "" ++ "'" else sql
  let sql := if strTruthy c.end_date then sql ++ " AND condition_start_date <= '" ++ c.end_date.getD "" ++ "'" else sql
  if 1 < c.min_occurrences then
    "\n                SELECT person_id\n                FROM (" ++ sql ++ ") t\n                GROUP BY person_id\n                HAVING COUNT(*) >= " ++ intToDecimal c.min_occurrences ++ "\n            "
  else sql

/-- `_build_drug_sql`. -/
def buildDrugSql (schema : String) (c : CriteriaDefinition) : String :=
  let ids := conceptIdsStr c.concept_ids
  let sql := "\n            SELECT person_id\n            FROM " ++ schema ++ ".drug_exposure\n            WHERE drug_concept_id IN (\n                SELECT descendant_concept_id \n                FROM " ++ schema ++ ".concept_ancestor \n                WHERE ancestor_concept_id IN (" ++ ids ++ ")\n            )\n        "
  let sql := if strTruthy c.start_date then sql ++ " AND drug_exposure_start_date >= '" ++ c.start_date.getD "" ++ "'" else sql
  let sql := if strTruthy c.end_date then sql ++ " AND drug_exposure_start_date <= '" ++ c.end_date.getD "" ++ "'" else sql
  if 1 < c.min_occurrences then
    "\n                SELECT person_id\n                FROM (" ++ sql ++ ") t\n                GROUP BY person_id\n                HAVING COUNT(*) >= " ++ intToDecimal c.min_occurrences ++ "\n            "
  else sql

/-- `_build_procedure_sql`. -/
def buildProcedureSql (schema : String) (c : CriteriaDefinition) : String :=
  let ids := conceptIdsStr c.concept_ids
  let sql := "\n            SELECT person_id\n            FROM " ++ schema ++ ".procedure_occurrence\n            WHERE procedure_concept_id IN (\n                SELECT descendant_concept_id \n                FROM " ++ schema ++ ".concept_ancestor \n                WHERE ancestor_concept_id IN (" ++ ids ++ ")\n            )\n        "
  let sql := if strTruthy c.start_date then sql ++ " AND procedure_date >= '" ++ c.start_date.getD "" ++ "'" else sql
  let sql := if strTruthy c.end_date then sql ++ " AND procedure_date <= '" ++ c.end_date.getD "" ++ "'" else sql
  if 1 < c.min_occurrences then
    "\n                SELECT person_id\n                FROM (" ++ sql ++ ") t\n                GROUP BY person_id\n                HAVING COUNT(*) >= " ++ intToDecimal c.min_occurrences ++ "\n            "
  else sql

/-- `_build_visit_sql`. -/
def buildVisitSql (schema : String) (c : CriteriaDefinition) : String :=
  let ids := conceptIdsStr c.concept_ids
  let sql := "\n            SELECT person_id\n            FROM " ++ schema ++ ".visit_occurrence\n            WHERE visit_concept_id IN (\n                SELECT descendant_concept_id \n                FROM " ++ schema ++ ".concept_ancestor \n                WHERE ancestor_concept_id IN (" ++ ids ++ ")\n            )\n        "
  let sql := if strTruthy c.start_date then sql ++ " AND visit_start_date >= '" ++ c.start_date.getD "" ++ "'" else sql
  let sql := if strTruthy c.end_date then sql ++ " AND visit_start_date <= '" ++ c.end_date.getD "" ++ "'" else sql
  if 1 < c.min_occurrences then
    "\n                SELECT person_id\n                FROM (" ++ sql ++ ") t\n                GROUP BY person_id\n                HAVING COUNT(*) >= " ++ intToDecimal c.min_occurrences ++ "\n            "
  else sql

/-- `_build_observation_sql`.  The two `value_as_number` bounds are
appended for `is not None` values (the Python test here is `is not
None`, not truthiness). -/
def buildObservationSql (schema : String) (c : CriteriaDefinition) : String :=
  let ids := conceptIdsStr c.concept_ids
  let sql := "\n            SELECT person_id\n            FROM " ++ schema ++ ".observation\n            WHERE observation_concept_id IN (\n                SELECT descendant_concept_id \n                FROM " ++ schema ++ ".concept_ancestor \n                WHERE ancestor_concept_id IN (" ++ ids ++ ")\n            )\n        "
  let sql := if strTruthy c.start_date then sql ++ " AND observation_date >= '" ++ c.start_date.getD "" ++ "'" else sql
  let sql := if strTruthy c.end_date then sql ++ " AND observation_date <= '" ++ c.end_date.getD "" ++ "'" else sql
  let sql := match c.value_min with
    | some v => sql ++ " AND value_as_number >= " ++ intToDecimal v
    | none => sql
  let sql := match c.value_max with
    | some v => sql ++ " AND value_as_number <= " ++ intToDecimal v
    | none => sql
  if 1 < c.min_occurrences then
    "\n                SELECT person_id\n                FROM (" ++ sql ++ ") t\n                GROUP BY person_id\n                HAVING COUNT(*) >= " ++ intToDecimal c.min_occurrences ++ "\n            "
  else sql

/-- Python `f"{x}"` on an `Optional[int]` (`None` renders as `"None"`). -/
def pyOptIntStr : Option Int → String
  | none => "None"
  | some n => intToDecimal n

/-- `_build_age_sql`.  The `if/elif` chain has no `else`: an operator
other than the four handled ones leaves the bare age expression. -/
def buildAgeSql (schema : String) (c : CriteriaDefinition) : String :=
  let sql := "\n            SELECT person_id\n            FROM " ++ schema ++ ".person\n            WHERE FLOOR(DATEDIFF(CURRENT_DATE(), \n                CONCAT(year_of_birth, '-', \n                    LPAD(COALESCE(month_of_birth, 1), 2, '0'), '-',\n                    LPAD(COALESCE(day_of_birth, 1), 2, '0')\n                )\n            ) / 365.25)\n        "
  if c.operator = some OperatorType.equals then sql ++ " = " ++ pyOptIntStr c.value
  else if c.operator = some OperatorType.greater_than then sql ++ " > " ++ pyOptIntStr c.value
  else if c.operator = some OperatorType.less_than then sql ++ " < " ++ pyOptIntStr c.value
  else if c.operator = some OperatorType.between then sql ++ " BETWEEN " ++ pyOptIntStr c.value_min ++ " AND " ++ pyOptIntStr c.value_max
  else sql

/-- `_build_gender_sql`. -/
def buildGenderSql (schema : String) (c : CriteriaDefinition) : String :=
  "\n            SELECT person_id\n            FROM " ++ schema ++ ".person\n            WHERE gender_concept_id IN (" ++ conceptIdsStr c.concept_ids ++ ")\n        "

/-- `_build_criteria_sql`: dispatch on the criteria type.  The Python
`else: raise ValueError(...)` branch is unreachable because
`CriteriaType` is a closed enumeration whose seven members are all
handled, so the embedding is a total match. -/
def buildCriteriaSql (schema : String) (c : CriteriaDefinition) : String :=
  match c.criteria_type with
  | CriteriaType.condition => buildConditionSql schema c
  | CriteriaType.drug => buildDrugSql schema c
  | CriteriaType.procedure => buildProcedureSql schema c
  | CriteriaType.visit => buildVisitSql schema c
  | CriteriaType.observation => buildObservationSql schema c
  | CriteriaType.age => buildAgeSql schema c
  | CriteriaType.gender => buildGenderSql schema c

/-! ## Cohort assembly (`_build_cohort_sql`, lines 64–109) -/

/-- The leading `WITH base_population AS (...)` block. -/
def basePopulationCte (schema : String) : String :=
  "\n        WITH base_population AS (\n            SELECT DISTINCT person_id\n            FROM " ++ schema ++ ".person\n        )\n        "

/-- The inclusion-criteria loop: the counter is incremented before each
CTE is named, so the criteria at positions `1..n` of the list get the
names `inclusion_1..inclusion_n`. -/
def inclusionCteParts (schema : String) : Nat → List CriteriaDefinition → List String
  | _, [] => []
  | counter, c :: rest =>
    ("inclusion_" ++ natToDecimal (counter + 1) ++ " AS (\n" ++ buildCriteriaSql schema c ++ "\n)")
      :: inclusionCteParts schema (counter + 1) rest

/-- The exclusion-criteria loop, continuing the same counter. -/
def exclusionCteParts (schema : String) : Nat → List CriteriaDefinition → List String
  | _, [] => []
  | counter, c :: rest =>
    ("exclusion_" ++ natToDecimal (counter + 1) ++ " AS (\n" ++ buildCriteriaSql schema c ++ "\n)")
      :: exclusionCteParts schema (counter + 1) rest

/-- The `for i in range(1, inclusion_count + 1)` loop appending one
`INTERSECT` block per inclusion CTE. -/
def intersectClauses : Nat → Nat → String
  | _, 0 => ""
  | i, k + 1 =>
    "INTERSECT\nSELECT person_id FROM inclusion_" ++ natToDecimal i ++ "\n"
      ++ intersectClauses (i + 1) k

/-- The `for i in range(1, exclusion_count + 1)` loop appending one
`EXCEPT` block per exclusion CTE; the referenced name offsets the index
by the inclusion count. -/
def exceptClauses (inclusionCount : Nat) : Nat → Nat → String
  | _, 0 => ""
  | i, k + 1 =>
    "EXCEPT\nSELECT person_id FROM exclusion_" ++ natToDecimal (inclusionCount + i) ++ "\n"
      ++ exceptClauses inclusionCount (i + 1) k

/-- `_build_cohort_sql`. -/
def buildCohortSql (schema : String) (cd : CohortDefinition) : String :=
  let base_query := basePopulationCte schema
  let cte_parts :=
    inclusionCteParts schema 0 cd.inclusion_criteria
      ++ exclusionCteParts schema cd.inclusion_criteria.length cd.exclusion_criteria
  let base_query :=
    if cte_parts.isEmpty then base_query
    else base_query ++ ",\n" ++ String.intercalate ",\n" cte_parts
  let final_query := "\nSELECT person_id FROM base_population\n"
  let final_query := final_query ++ intersectClauses 1 cd.inclusion_criteria.length
  let final_query :=
    final_query ++ exceptClauses cd.inclusion_criteria.length 1 cd.exclusion_criteria.length
  base_query ++ final_query

/-! ## Relational meaning of the generated SQL

A small model of the OMOP tables the generated statements touch.  The
evaluators below follow the emitted SQL clause by clause: the inner
`SELECT` of a condition fragment keeps one output row per qualifying
`condition_occurrence` row (no `DISTINCT`), the `concept_ancestor`
subquery is the descendant closure, and the `GROUP BY person_id HAVING
COUNT(*) >= n` wrapper keeps one row per subject whose row count meets
the threshold.  `DATE` comparisons on the inlined ISO-format strings are
modelled lexicographically. -/

structure PersonRow where
  person_id : Int
  gender_concept_id : Int
deriving DecidableEq, Repr

structure ConditionOccurrenceRow where
  person_id : Int
  condition_concept_id : Int
  condition_start_date : String
deriving DecidableEq, Repr

structure ConceptAncestorRow where
  ancestor_concept_id : Int
  descendant_concept_id : Int
deriving DecidableEq, Repr

structure Db where
  person : List PersonRow
  condition_occurrence : List ConditionOccurrenceRow
  concept_ancestor : List ConceptAncestorRow
deriving Repr

/-- Meaning of `SELECT descendant_concept_id FROM concept_ancestor WHERE
ancestor_concept_id IN (...)`. -/
def descendantClosure (db : Db) (ancestors : List Int) : List Int :=
  (db.concept_ancestor.filter (fun r => ancestors.contains r.ancestor_concept_id)).map
    (fun r => r.descendant_concept_id)

/-- The date-window filter of a condition fragment: each bound is present
exactly when the corresponding clause was appended to the SQL. -/
def conditionDateOk (c : CriteriaDefinition) (d : String) : Bool :=
  (if strTruthy c.start_date then decide (c.start_date.getD "" ≤ d) else true)
    && (if strTruthy c.end_date then decide (d ≤ c.end_date.getD "") else true)

/-- Rows produced by the inner `SELECT` of a condition fragment: one
`person_id` per matching `condition_occurrence` row. -/
def conditionEventRows (db : Db) (c : CriteriaDefinition) : List Int :=
  (db.condition_occurrence.filter (fun r =>
      (descendantClosure db (c.concept_ids.getD [])).contains r.condition_concept_id
        && conditionDateOk c r.condition_start_date)).map
    (fun r => r.person_id)

/-- Meaning of the `GROUP BY person_id HAVING COUNT(*) >= n` wrapper:
one row per group whose row count meets the threshold. -/
def groupByHavingCount (rows : List Int) (n : Int) : List Int :=
  rows.dedup.filter (fun p => n ≤ (rows.count p : Int))

/-- Meaning of a full compiled condition fragment. -/
def conditionFragSem (db : Db) (c : CriteriaDefinition) : List Int :=
  if 1 < c.min_occurrences then
    groupByHavingCount (conditionEventRows db c) c.min_occurrences
  else conditionEventRows db c

/-- Meaning of the `base_population` CTE: `SELECT DISTINCT person_id
FROM person`. -/
def basePopulationSem (db : Db) : List Int :=
  (db.person.map (fun r => r.person_id)).dedup

/-- Meaning of the assembled statement `base_population INTERSECT
inclusion_1 ... EXCEPT exclusion_{n+1} ...`, parameterised by the
meaning `frag` of the individual criterion CTEs: `INTERSECT` keeps the
members of the left operand that occur on the right, `EXCEPT` removes
them, both over the already-distinct base population, left to right. -/
def cohortSem (db : Db) (frag : CriteriaDefinition → List Int) (cd : CohortDefinition) : List Int :=
  let afterInclusions :=
    cd.inclusion_criteria.foldl
      (fun acc c => acc.filter (fun x => (frag c).contains x))
      (basePopulationSem db)
  cd.exclusion_criteria.foldl
    (fun acc c => acc.filter (fun x => !((frag c).contains x)))
    afterInclusions

/-! ## Execution and aggregation (`build_cohort`, lines 22–62) -/

/-- The part of `CohortResult` that `build_cohort` computes (the echoed
definition and the wall-clock `execution_time_seconds` are not
modelled).  `α` is the payload type of the demographics collaborator. -/
structure CohortResultM (α : Type) where
  patient_count : Nat
  demographics : Option α
  sample_patient_ids : List Int
  sql_query : String
deriving Repr

/-- `build_cohort`: compile the definition, run it through the
executor, and post-process exactly as the Python does —
`demographics` only for a non-empty result and only over
`person_ids[:1000]`, `sample_patient_ids = person_ids[:10]`,
`patient_count = len(person_ids)`. -/
def build_cohort {α : Type} (schema : String) (cd : CohortDefinition)
    (execQuery : String → List Int) (getDemographicsSummary : List Int → α) :
    CohortResultM α :=
  let sql := buildCohortSql schema cd
  let person_ids := execQuery sql
  let demographics :=
    if person_ids.isEmpty then none
    else some (getDemographicsSummary (person_ids.take 1000))
  let sample_patient_ids := if person_ids.isEmpty then [] else person_ids.take 10
  { patient_count := person_ids.length
    demographics := demographics
    sample_patient_ids := sample_patient_ids
    sql_query := sql }

/-- The shape of `omop_service.get_demographics_summary`'s payload
(gender distribution and age distribution; the float-valued
`age_stats` entry is not modelled). -/
structure DemographicsSummary where
  gender_distribution : List (String × Nat)
  age_distribution : List (Int × Nat)
deriving DecidableEq, Repr

/-- Modelled from the spec: the "demographics summary of empty
distributions" that the spec's error-handling section says an
empty cohort reports. -/
def emptyDistributionsSummary : DemographicsSummary :=
  { gender_distribution := [], age_distribution := [] }

/-! ## Saving a definition (`save_cohort_definition`, lines 331–381) -/

/-- A row of the `cohort_definition` table.  The column written from
`request.cohort_definition_syntax` is called `cohort_definition_sqltext`
here. -/
structure CohortDefinitionRow where
  cohort_definition_id : Int
  cohort_definition_name : String
  cohort_definition_description : String
  definition_type_concept_id : Int
  cohort_definition_sqltext : String
  subject_concept_id : Int
  cohort_initiation_date : String
deriving DecidableEq, Repr

/-- `SaveCohortRequest` (field `cohort_definition_syntax` is called
`cohort_definition_sqltext` here). -/
structure SaveCohortRequest where
  cohort_definition_name : String
  cohort_definition_description : String
  cohort_definition_sqltext : String
deriving DecidableEq, Repr

/-- `SaveCohortResponse`. -/
structure SaveCohortResponse where
  cohort_definition_id : Int
  cohort_definition_name : String
  cohort_definition_description : String
  cohort_initiation_date : String
deriving DecidableEq, Repr

/-- Meaning of `SELECT COALESCE(MAX(cohort_definition_id), 0) FROM
cohort_definition`: the greatest id present, and `0` only for an empty
table. -/
def sqlMaxIdOrZero (tbl : List CohortDefinitionRow) : Int :=
  match tbl.map (fun r => r.cohort_definition_id) with
  | [] => 0
  | x :: xs => xs.foldl max x

/-- The `INSERT INTO cohort_definition ... VALUES (...)` statement text,
with the three free-text request fields passed through the quote-doubling
escape exactly as in the source (`.replace("'", "''")`). -/
def insertCohortDefinitionSql (schema : String) (req : SaveCohortRequest)
    (next_id : Int) (current_date : String) : String :=
  "\n        INSERT INTO " ++ schema ++ ".cohort_definition (\n            cohort_definition_id,\n            cohort_definition_name,\n            cohort_definition_description,\n            definition_type_concept_id,\n            cohort_definition_syntax,\n            subject_concept_id,\n            cohort_initiation_date\n        ) VALUES (\n            " ++ intToDecimal next_id ++ ",\n            '" ++ escapeQuotes req.cohort_definition_name ++ "',\n            '" ++ escapeQuotes req.cohort_definition_description ++ "',\n            " ++ intToDecimal next_id ++ ",\n            '" ++ escapeQuotes req.cohort_definition_sqltext ++ "',\n            " ++ intToDecimal next_id ++ ",\n            '" ++ current_date ++ "'\n        )\n        "

/-- Outcome of one `save_cohort_definition` call: the response, the new
table contents, and the executed `INSERT` text. -/
structure SaveOutcome where
  response : SaveCohortResponse
  table : List CohortDefinitionRow
  insert_sql : String

/-- `save_cohort_definition`: read the current maximum id, assign
`max + 1`, insert the row (the warehouse stores the unescaped values the
escaped literals denote), and echo the name, description and save date.
`today` stands for `date.today().strftime('%Y-%m-%d')`. -/
def save_cohort_definition (schema : String) (tbl : List CohortDefinitionRow)
    (req : SaveCohortRequest) (today : String) : SaveOutcome :=
  let max_id := sqlMaxIdOrZero tbl
  let next_id := max_id + 1
  let current_date := today
  let newRow : CohortDefinitionRow :=
    { cohort_definition_id := next_id
      cohort_definition_name := req.cohort_definition_name
      cohort_definition_description := req.cohort_definition_description
      definition_type_concept_id := next_id
      cohort_definition_sqltext := req.cohort_definition_sqltext
      subject_concept_id := next_id
      cohort_initiation_date := current_date }
  { response :=
      { cohort_definition_id := next_id
        cohort_definition_name := req.cohort_definition_name
        cohort_definition_description := req.cohort_definition_description
        cohort_initiation_date := current_date }
    table := tbl ++ [newRow]
    insert_sql := insertCohortDefinitionSql schema req next_id current_date }

/-! ## Spec-side view of the assembled statement (for claim C1)

The spec describes the assembled statement as: the base-population CTE,
then one CTE per criterion under the names `inclusion_1 .. inclusion_n`
and `exclusion_{n+1} .. exclusion_{n+m}` in input order, then the final
selection with one `INTERSECT` block per inclusion name and one `EXCEPT`
block per exclusion name, in order.  `cohortSqlAssembled` states that
shape directly in terms of the name lists. -/

/-- The inclusion CTE names `inclusion_1 .. inclusion_n`. -/
def inclusionCteNames (n : Nat) : List String :=
  (List.range' 1 n).map (fun i => "inclusion_" ++ natToDecimal i)

/-- The exclusion CTE names `exclusion_{n+1} .. exclusion_{n+m}`,
continuing the inclusion counter. -/
def exclusionCteNames (n m : Nat) : List String :=
  (List.range' (n + 1) m).map (fun i => "exclusion_" ++ natToDecimal i)

/-- All CTE names of the assembled statement, in order. -/
def cteNames (cd : CohortDefinition) : List String :=
  inclusionCteNames cd.inclusion_criteria.length
    ++ exclusionCteNames cd.inclusion_criteria.length cd.exclusion_criteria.length

/-- One named CTE definition. -/
def renderCte (schema : String) (p : String × CriteriaDefinition) : String :=
  p.1 ++ " AS (\n" ++ buildCriteriaSql schema p.2 ++ "\n)"

/-- The assembled statement as the spec words it: base-population CTE,
the named criterion CTEs in input order, and a final selection applying
`INTERSECT` against every inclusion name then `EXCEPT` against every
exclusion name, in order. -/
def cohortSqlAssembled (schema : String) (cd : CohortDefinition) : String :=
  let n := cd.inclusion_criteria.length
  let m := cd.exclusion_criteria.length
  let ctes :=
    (List.zip (inclusionCteNames n) cd.inclusion_criteria).map (renderCte schema)
      ++ (List.zip (exclusionCteNames n m) cd.exclusion_criteria).map (renderCte schema)
  basePopulationCte schema
    ++ (if ctes.isEmpty then "" else ",\n" ++ String.intercalate ",\n" ctes)
    ++ "\nSELECT person_id FROM base_population\n"
    ++ String.join ((inclusionCteNames n).map
        (fun nm => "INTERSECT\nSELECT person_id FROM " ++ nm ++ "\n"))
    ++ String.join ((exclusionCteNames n m).map
        (fun nm => "EXCEPT\nSELECT person_id FROM " ++ nm ++ "\n"))

/-! ## Spec-side views of single fragments (claims C2, C3, C4, C10) -/

/-- The event-selection part of a condition fragment (concept filter and
date window), before any occurrence-count wrapper. -/
def conditionEventsSql (schema : String) (c : CriteriaDefinition) : String :=
  let ids := conceptIdsStr c.concept_ids
  let sql := "\n            SELECT person_id\n            FROM " ++ schema ++ ".condition_occurrence\n            WHERE condition_concept_id IN (\n                SELECT descendant_concept_id \n                FROM " ++ schema ++ ".concept_ancestor \n                WHERE ancestor_concept_id IN (" ++ ids ++ ")\n            )\n        "
  let sql := if strTruthy c.start_date then sql ++ " AND condition_start_date >= '" ++ c.start_date.getD "" ++ "'" else sql
  if strTruthy c.end_date then sql ++ " AND condition_start_date <= '" ++ c.end_date.getD "" ++ "'" else sql

/-- The event-selection part of a drug fragment. -/
def drugEventsSql (schema : String) (c : CriteriaDefinition) : String :=
  let ids := conceptIdsStr c.concept_ids
  let sql := "\n            SELECT person_id\n            FROM " ++ schema ++ ".drug_exposure\n            WHERE drug_concept_id IN (\n                SELECT descendant_concept_id \n                FROM " ++ schema ++ ".concept_ancestor \n                WHERE ancestor_concept_id IN (" ++ ids ++ ")\n            )\n        "
  let sql := if strTruthy c.start_date then sql ++ " AND drug_exposure_start_date >= '" ++ c.start_date.getD "" ++ "'" else sql
  if strTruthy c.end_date then sql ++ " AND drug_exposure_start_date <= '" ++ c.end_date.getD "" ++ "'" else sql

/-- The event-selection part of a procedure fragment. -/
def procedureEventsSql (schema : String) (c : CriteriaDefinition) : String :=
  let ids := conceptIdsStr c.concept_ids
  let sql := "\n            SELECT person_id\n            FROM " ++ schema ++ ".procedure_occurrence\n            WHERE procedure_concept_id IN (\n                SELECT descendant_concept_id \n                FROM " ++ schema ++ ".concept_ancestor \n                WHERE ancestor_concept_id IN (" ++ ids ++ ")\n            )\n        "
  let sql := if strTruthy c.start_date then sql ++ " AND procedure_date >= '" ++ c.start_date.getD "" ++ "'" else sql
  if strTruthy c.end_date then sql ++ " AND procedure_date <= '" ++ c.end_date.getD "" ++ "'" else sql

/-- The event-selection part of a visit fragment. -/
def visitEventsSql (schema : String) (c : CriteriaDefinition) : String :=
  let ids := conceptIdsStr c.concept_ids
  let sql := "\n            SELECT person_id\n            FROM " ++ schema ++ ".visit_occurrence\n            WHERE visit_concept_id IN (\n                SELECT descendant_concept_id \n                FROM " ++ schema ++ ".concept_ancestor \n                WHERE ancestor_concept_id IN (" ++ ids ++ ")\n            )\n        "
  let sql := if strTruthy c.start_date then sql ++ " AND visit_start_date >= '" ++ c.start_date.getD "" ++ "'" else sql
  if strTruthy c.end_date then sql ++ " AND visit_start_date <= '" ++ c.end_date.getD "" ++ "'" else sql

/-- The event-selection part of an observation fragment (concept filter,
date window and numeric value bounds). -/
def observationEventsSql (schema : String) (c : CriteriaDefinition) : String :=
  let ids := conceptIdsStr c.concept_ids
  let sql := "\n            SELECT person_id\n            FROM " ++ schema ++ ".observation\n            WHERE observation_concept_id IN (\n                SELECT descendant_concept_id \n                FROM " ++ schema ++ ".concept_ancestor \n                WHERE ancestor_concept_id IN (" ++ ids ++ ")\n            )\n        "
  let sql := if strTruthy c.start_date then sql ++ " AND observation_date >= '" ++ c.start_date.getD "" ++ "'" else sql
  let sql := if strTruthy c.end_date then sql ++ " AND observation_date <= '" ++ c.end_date.getD "" ++ "'" else sql
  let sql := match c.value_min with
    | some v => sql ++ " AND value_as_number >= " ++ intToDecimal v
    | none => sql
  match c.value_max with
    | some v => sql ++ " AND value_as_number <= " ++ intToDecimal v
    | none => sql

/-- The `GROUP BY person_id HAVING COUNT(*) >= n` outer wrapper applied
to a fragment, as the spec words it. -/
def minOccWrapSql (sql : String) (n : Int) : String :=
  "\n                SELECT person_id\n                FROM (" ++ sql ++ ") t\n                GROUP BY person_id\n                HAVING COUNT(*) >= " ++ intToDecimal n ++ "\n            "

/-- The bare age expression that `_build_age_sql` starts from (a `WHERE`
clause with no comparison yet). -/
def ageBaseExprSql (schema : String) : String :=
  "\n            SELECT person_id\n            FROM " ++ schema ++ ".person\n            WHERE FLOOR(DATEDIFF(CURRENT_DATE(), \n                CONCAT(year_of_birth, '-', \n                    LPAD(COALESCE(month_of_birth, 1), 2, '0'), '-',\n                    LPAD(COALESCE(day_of_birth, 1), 2, '0')\n                )\n            ) / 365.25)\n        "

/-- The condition fragment produced for an empty concept-ID list: the
ancestor filter degenerates to the empty `IN ()` list (invalid SQL that
a warehouse rejects at execution; it does not match all subjects). -/
def emptyConceptConditionSql (schema : String) : String :=
  "\n            SELECT person_id\n            FROM " ++ schema ++ ".condition_occurrence\n            WHERE condition_concept_id IN (\n                SELECT descendant_concept_id \n                FROM " ++ schema ++ ".concept_ancestor \n                WHERE ancestor_concept_id IN ()\n            )\n        "

/-- Follows the spec's words for claim C3: like `buildConditionSql`, but
with the quote-doubling escape applied to the inlined `start_date` /
`end_date` strings before they are placed inside the query text. -/
def buildConditionSqlSpecDateEscaped (schema : String) (c : CriteriaDefinition) : String :=
  let ids := conceptIdsStr c.concept_ids
  let sql := "\n            SELECT person_id\n            FROM " ++ schema ++ ".condition_occurrence\n            WHERE condition_concept_id IN (\n                SELECT descendant_concept_id \n                FROM " ++ schema ++ ".concept_ancestor \n                WHERE ancestor_concept_id IN (" ++ ids ++ ")\n            )\n        "
  let sql := if strTruthy c.start_date then sql ++ " AND condition_start_date >= '" ++ escapeQuotes (c.start_date.getD "") ++ "'" else sql
  let sql := if strTruthy c.end_date then sql ++ " AND condition_start_date <= '" ++ escapeQuotes (c.end_date.getD "") ++ "'" else sql
  if 1 < c.min_occurrences then
    "\n                SELECT person_id\n                FROM (" ++ sql ++ ") t\n                GROUP BY person_id\n                HAVING COUNT(*) >= " ++ intToDecimal c.min_occurrences ++ "\n            "
  else sql

/-- The `INSERT` statement shape with already-escaped field values, as
the spec words the escaping obligation. -/
def insertSqlWithEscapedFields (schema nameEsc descEsc sqlEsc : String)
    (next_id : Int) (current_date : String) : String :=
  "\n        INSERT INTO " ++ schema ++ ".cohort_definition (\n            cohort_definition_id,\n            cohort_definition_name,\n            cohort_definition_description,\n            definition_type_concept_id,\n            cohort_definition_syntax,\n            subject_concept_id,\n            cohort_initiation_date\n        ) VALUES (\n            " ++ intToDecimal next_id ++ ",\n            '" ++ nameEsc ++ "',\n            '" ++ descEsc ++ "',\n            " ++ intToDecimal next_id ++ ",\n            '" ++ sqlEsc ++ "',\n            " ++ intToDecimal next_id ++ ",\n            '" ++ current_date ++ "'\n        )\n        "

/-! ## Concrete fixtures used by counterexamples and witnesses -/

/-- A condition criterion with no concept IDs at all. -/
def emptyConceptCriterion : CriteriaDefinition :=
  { id := "crit-empty", criteria_type := CriteriaType.condition }

/-- A condition criterion whose `start_date` string carries an embedded
single quote. -/
def quotedDateCriterion : CriteriaDefinition :=
  { id := "crit-quoted-date", criteria_type := CriteriaType.condition
    concept_ids := some [201826]
    start_date := some "2024-01-01' OR '1'='1" }

/-- A condition criterion on concept `100` with the default
`min_occurrences = 1`. -/
def simpleConditionCriterion : CriteriaDefinition :=
  { id := "crit-simple", criteria_type := CriteriaType.condition
    concept_ids := some [100] }

/-- The same criterion with `min_occurrences = 2`. -/
def twiceConditionCriterion : CriteriaDefinition :=
  { id := "crit-twice", criteria_type := CriteriaType.condition
    concept_ids := some [100]
    min_occurrences := 2 }

/-- A database in which subject `1` has two condition rows with the same
concept `100` (so one distinct concept match but two event rows), and
subject `2` has one. -/
def twoEventsDb : Db :=
  { person := [{ person_id := 1, gender_concept_id := 8507 },
               { person_id := 2, gender_concept_id := 8532 }]
    condition_occurrence :=
      [{ person_id := 1, condition_concept_id := 100, condition_start_date := "2020-01-01" },
       { person_id := 1, condition_concept_id := 100, condition_start_date := "2021-06-15" },
       { person_id := 2, condition_concept_id := 100, condition_start_date := "2020-03-02" }]
    concept_ancestor := [{ ancestor_concept_id := 100, descendant_concept_id := 100 }] }

/-- An age criterion with the unhandled operator `NotEquals`. -/
def notEqualsAgeCriterion : CriteriaDefinition :=
  { id := "crit-age-ne", criteria_type := CriteriaType.age
    operator := some OperatorType.not_equals
    value := some 40 }

/-- A cohort definition with no criteria at all. -/
def emptyCohortDefinition : CohortDefinition := { name := "all persons" }

/-- A one-inclusion cohort definition. -/
def sampleCohortDefinition : CohortDefinition :=
  { name := "sample"
    inclusion_criteria := [simpleConditionCriterion]
    exclusion_criteria := [] }

/-! ## Foundational lemmas -/

theorem digitVal_digitChar {d : Nat} (h : d < 10) :
    digitVal (Nat.digitChar d) = d := by
  interval_cases d <;> rfl

theorem parseDecimal_decimalDigitsAux :
    ∀ fuel n, n < fuel → parseDecimal (decimalDigitsAux fuel n) = n := by
  intro fuel
  induction fuel with
  | zero => intro n h; omega
  | succ fuel ih =>
    intro n h
    rw [decimalDigitsAux]
    by_cases h10 : n < 10
    · rw [if_pos h10]
      simpa [parseDecimal] using digitVal_digitChar h10
    · rw [if_neg h10]
      unfold parseDecimal at ih ⊢
      rw [List.foldl_append, ih (n / 10) (by omega)]
      simp [digitVal_digitChar (show n % 10 < 10 by omega)]
      omega

theorem natToDecimal_injective : Function.Injective natToDecimal := by
  intro m n h
  have hd : decimalDigitsAux (m + 1) m = decimalDigitsAux (n + 1) n := congrArg String.data h
  have := congrArg parseDecimal hd
  rwa [parseDecimal_decimalDigitsAux (m + 1) m (by omega),
    parseDecimal_decimalDigitsAux (n + 1) n (by omega)] at this

theorem strJoin_cons (a : String) (l : List String) :
    String.join (a :: l) = a ++ String.join l := by
  cases a with
  | mk d =>
    rw [String.join_eq, String.join_eq]
    rfl

theorem strJoin_nil : String.join [] = "" := by
  rw [String.join_eq]
  rfl

theorem strExt {s t : String} (h : s.data = t.data) : s = t := by
  cases s
  cases t
  exact congrArg String.mk h

theorem inclusionCteParts_eq (schema : String) (cs : List CriteriaDefinition) :
    ∀ k, inclusionCteParts schema k cs =
      (List.zip ((List.range' (k + 1) cs.length).map (fun i => "inclusion_" ++ natToDecimal i)) cs).map
        (renderCte schema) := by
  induction cs with
  | nil => intro k; rfl
  | cons c rest ih =>
    intro k
    simp only [inclusionCteParts, List.length_cons, List.range'_succ, List.map_cons,
      List.zip_cons_cons, renderCte, ih (k + 1)]

theorem exclusionCteParts_eq (schema : String) (cs : List CriteriaDefinition) :
    ∀ k, exclusionCteParts schema k cs =
      (List.zip ((List.range' (k + 1) cs.length).map (fun i => "exclusion_" ++ natToDecimal i)) cs).map
        (renderCte schema) := by
  induction cs with
  | nil => intro k; rfl
  | cons c rest ih =>
    intro k
    simp only [exclusionCteParts, List.length_cons, List.range'_succ, List.map_cons,
      List.zip_cons_cons, renderCte, ih (k + 1)]

theorem intersectClauses_eq (k : Nat) :
    ∀ i, intersectClauses i k =
      String.join (((List.range' i k).map (fun j => "inclusion_" ++ natToDecimal j)).map
        (fun nm => "INTERSECT\nSELECT person_id FROM " ++ nm ++ "\n")) := by
  induction k with
  | zero => intro i; rw [intersectClauses]; simp [strJoin_nil]
  | succ k ih =>
    intro i
    rw [intersectClauses, List.range'_succ, List.map_cons, List.map_cons, strJoin_cons, ih (i + 1)]
    rfl

theorem exceptClauses_eq (n : Nat) (k : Nat) :
    ∀ i, exceptClauses n i k =
      String.join (((List.range' (n + i) k).map (fun j => "exclusion_" ++ natToDecimal j)).map
        (fun nm => "EXCEPT\nSELECT person_id FROM " ++ nm ++ "\n")) := by
  induction k with
  | zero => intro i; rw [exceptClauses]; simp [strJoin_nil]
  | succ k ih =>
    intro i
    rw [exceptClauses, List.range'_succ, List.map_cons, List.map_cons, strJoin_cons, ih (i + 1)]
    rfl

theorem inclusionName_injective :
    Function.Injective (fun i => "inclusion_" ++ natToDecimal i) := by
  intro a b h
  apply natToDecimal_injective
  apply strExt
  have hd := congrArg String.data h
  rw [String.data_append, String.data_append] at hd
  exact List.append_cancel_left hd

theorem exclusionName_injective :
    Function.Injective (fun i => "exclusion_" ++ natToDecimal i) := by
  intro a b h
  apply natToDecimal_injective
  apply strExt
  have hd := congrArg String.data h
  rw [String.data_append, String.data_append] at hd
  exact List.append_cancel_left hd

theorem inclusionName_ne_exclusionName (a b : String) :
    ("inclusion_" ++ a) ≠ ("exclusion_" ++ b) := by
  intro h
  have hd := congrArg String.data h
  rw [String.data_append, String.data_append] at hd
  have h1 : (some 'i' : Option Char) = some 'e' := congrArg List.head? hd
  exact absurd (Option.some.inj h1) (by decide)

theorem cteNames_nodup (cd : CohortDefinition) : (cteNames cd).Nodup := by
  rw [cteNames, List.nodup_append]
  refine ⟨?_, ?_, ?_⟩
  · exact List.Nodup.map inclusionName_injective (List.nodup_range' 1 _ 1 (by omega))
  · exact List.Nodup.map exclusionName_injective (List.nodup_range' _ _ 1 (by omega))
  · intro x hx hx'
    rw [inclusionCteNames, List.mem_map] at hx
    rw [exclusionCteNames, List.mem_map] at hx'
    obtain ⟨i, _, hi⟩ := hx
    obtain ⟨j, _, hj⟩ := hx'
    exact inclusionName_ne_exclusionName (natToDecimal i) (natToDecimal j) (hi.trans hj.symm)

theorem cohort_sql_structure (schema : String) (cd : CohortDefinition) :
    buildCohortSql schema cd = cohortSqlAssembled schema cd := by
  simp only [buildCohortSql, cohortSqlAssembled, inclusionCteNames, exclusionCteNames,
    inclusionCteParts_eq schema cd.inclusion_criteria 0,
    exclusionCteParts_eq schema cd.exclusion_criteria cd.inclusion_criteria.length,
    intersectClauses_eq cd.inclusion_criteria.length 1,
    exceptClauses_eq cd.inclusion_criteria.length cd.exclusion_criteria.length 1]
  split
  · simp [String.append_assoc, String.append_empty]
  · simp [String.append_assoc]

/-! ## Generic helper lemmas -/

theorem nodup_foldl_filter {α β : Type} (cs : List β) (p : β → α → Bool) :
    ∀ acc : List α, acc.Nodup → (cs.foldl (fun a c => a.filter (p c)) acc).Nodup := by
  induction cs with
  | nil => intro acc h; exact h
  | cons c rest ih => intro acc h; exact ih _ (h.filter _)

/-- The assembled statement always returns a duplicate-free subject
list, whatever rows the criterion CTEs produce. -/
theorem cohortSem_nodup (db : Db) (frag : CriteriaDefinition → List Int)
    (cd : CohortDefinition) : (cohortSem db frag cd).Nodup := by
  unfold cohortSem
  exact nodup_foldl_filter _ _ _
    (nodup_foldl_filter _ _ _ (List.nodup_dedup _))

theorem le_foldl_max_init : ∀ (xs : List Int) (a : Int), a ≤ xs.foldl max a := by
  intro xs
  induction xs with
  | nil => intro a; exact le_refl a
  | cons x xs ih => intro a; exact le_trans (le_max_left a x) (ih (max a x))

theorem le_foldl_max_mem : ∀ (xs : List Int) (a x : Int), x ∈ xs → x ≤ xs.foldl max a := by
  intro xs
  induction xs with
  | nil => intro a x h; cases h
  | cons y ys ih =>
    intro a x h
    rcases List.mem_cons.mp h with h | h
    · subst h
      exact le_trans (le_max_right a x) (le_foldl_max_init ys (max a x))
    · exact ih (max a y) x h

theorem le_sqlMaxIdOrZero_of_mem (tbl : List CohortDefinitionRow) (r : CohortDefinitionRow)
    (h : r ∈ tbl) : r.cohort_definition_id ≤ sqlMaxIdOrZero tbl := by
  unfold sqlMaxIdOrZero
  have hmem : r.cohort_definition_id ∈ tbl.map (fun r => r.cohort_definition_id) :=
    List.mem_map.mpr ⟨r, h, rfl⟩
  cases hl : tbl.map (fun r => r.cohort_definition_id) with
  | nil => rw [hl] at hmem; cases hmem
  | cons x xs =>
    rw [hl] at hmem
    rcases List.mem_cons.mp hmem with h' | h'
    · subst h'; exact le_foldl_max_init xs _
    · exact le_foldl_max_mem xs x _ h'

theorem le_sqlMaxIdOrZero_append_singleton (tbl : List CohortDefinitionRow)
    (r : CohortDefinitionRow) : r.cohort_definition_id ≤ sqlMaxIdOrZero (tbl ++ [r]) :=
  le_sqlMaxIdOrZero_of_mem _ _ (List.mem_append_right tbl (List.mem_singleton_self r))

/-! ## Claims -/

/-- C1: for every `CohortDefinition` with `n` inclusion and `m` exclusion
criteria, the assembled statement is exactly: the `base_population` CTE
of distinct subject IDs, one CTE per inclusion criterion named
`inclusion_1 .. inclusion_n` in input order, one CTE per exclusion
criterion named `exclusion_{n+1} .. exclusion_{n+m}` continuing the same
counter, and a final selection from `base_population` applying
`INTERSECT` against the inclusion CTEs in order and then `EXCEPT`
against the exclusion CTEs in order; all CTE names are distinct. -/
theorem cohort_sql_cte_naming_and_set_operation_order (schema : String) (cd : CohortDefinition) :
    buildCohortSql schema cd = cohortSqlAssembled schema cd ∧ (cteNames cd).Nodup :=
  ⟨cohort_sql_structure schema cd, cteNames_nodup cd⟩

/-- C2 counterexample: compiling a condition criterion with a missing
concept-ID list does not surface any error — it returns an ordinary SQL
string whose ancestor filter is the degenerate empty list `IN ()`. -/
theorem empty_concept_ids_compile_returns_fragment :
    buildCriteriaSql "omop_catalog.omop_schema" emptyConceptCriterion
      = emptyConceptConditionSql "omop_catalog.omop_schema" := by
  decide

/-- C2 (amended): compilation of a concept-based criterion with an empty
or missing concept-ID list completes without raising and inlines an
empty `IN ()` list — invalid SQL that a warehouse rejects at execution —
and the empty ancestor set resolves to an empty descendant closure, so
the fragment matches no subjects, never every subject. -/
theorem empty_concept_ids_empty_closure_not_wildcard (schema : String) (db : Db) :
    buildConditionSql schema emptyConceptCriterion = emptyConceptConditionSql schema
    ∧ descendantClosure db [] = []
    ∧ conditionEventRows db emptyConceptCriterion = []
    ∧ conditionFragSem db emptyConceptCriterion = [] := by
  refine ⟨?_, ?_, ?_, ?_⟩
  · unfold buildConditionSql emptyConceptConditionSql emptyConceptCriterion
    simp [strTruthy, conceptIdsStr, String.append_empty, String.append_assoc]
    rfl
  · simp [descendantClosure]
  · simp [conditionEventRows, emptyConceptCriterion, descendantClosure]
  · unfold conditionFragSem
    rw [if_neg (by simp [emptyConceptCriterion])]
    simp [conditionEventRows, emptyConceptCriterion, descendantClosure]

/-- C3 counterexample: a criterion `start_date` carrying an embedded
single quote is inlined into the condition fragment verbatim, not
through the quote-doubling escape — the output differs from the
escaped-dates variant the claim describes. -/
theorem criterion_date_not_escaped :
    buildConditionSql "omop_catalog.omop_schema" quotedDateCriterion
      ≠ buildConditionSqlSpecDateEscaped "omop_catalog.omop_schema" quotedDateCriterion := by
  decide

/-- C3 (amended): the quote-doubling escape is applied to the three
free-text fields that `save_cohort_definition` inlines (name,
description, rendered SQL text), but criterion `start_date` /
`end_date` strings are inlined into fragments verbatim, without passing
through the escaping routine. -/
theorem quote_escaping_save_fields_not_dates (schema : String) (req : SaveCohortRequest)
    (next_id : Int) (current_date : String) :
    insertCohortDefinitionSql schema req next_id current_date
      = insertSqlWithEscapedFields schema
          (escapeQuotes req.cohort_definition_name)
          (escapeQuotes req.cohort_definition_description)
          (escapeQuotes req.cohort_definition_sqltext)
          next_id current_date
    ∧ buildConditionSql "omop_catalog.omop_schema" quotedDateCriterion
      = "\n            SELECT person_id\n            FROM omop_catalog.omop_schema.condition_occurrence\n            WHERE condition_concept_id IN (\n                SELECT descendant_concept_id \n                FROM omop_catalog.omop_schema.concept_ancestor \n                WHERE ancestor_concept_id IN (201826)\n            )\n         AND condition_start_date >= '2024-01-01' OR '1'='1'" := by
  refine ⟨rfl, by decide⟩

/-- C4: each event-based builder wraps its event selection in the
`GROUP BY person_id HAVING COUNT(*) >= min_occurrences` outer query
exactly when `min_occurrences > 1` (and emits the bare event selection
otherwise), and the count applies to the event rows: in the relational
meaning of a condition fragment the threshold is compared against the
number of qualifying event rows per subject, with no deduplication of
the inner selection — concretely, a subject with two event rows for the
same single concept passes a `min_occurrences = 2` threshold. -/
theorem min_occurrences_wrapper (schema : String) (c : CriteriaDefinition) (db : Db) :
    buildConditionSql schema c
      = (if 1 < c.min_occurrences then minOccWrapSql (conditionEventsSql schema c) c.min_occurrences
         else conditionEventsSql schema c)
    ∧ buildDrugSql schema c
      = (if 1 < c.min_occurrences then minOccWrapSql (drugEventsSql schema c) c.min_occurrences
         else drugEventsSql schema c)
    ∧ buildProcedureSql schema c
      = (if 1 < c.min_occurrences then minOccWrapSql (procedureEventsSql schema c) c.min_occurrences
         else procedureEventsSql schema c)
    ∧ buildVisitSql schema c
      = (if 1 < c.min_occurrences then minOccWrapSql (visitEventsSql schema c) c.min_occurrences
         else visitEventsSql schema c)
    ∧ buildObservationSql schema c
      = (if 1 < c.min_occurrences then minOccWrapSql (observationEventsSql schema c) c.min_occurrences
         else observationEventsSql schema c)
    ∧ conditionFragSem db c
      = (if 1 < c.min_occurrences then groupByHavingCount (conditionEventRows db c) c.min_occurrences
         else conditionEventRows db c)
    ∧ conditionFragSem twoEventsDb twiceConditionCriterion = [1]
    ∧ (conditionEventRows twoEventsDb twiceConditionCriterion).count 1 = 2 := by
  refine ⟨?_, ?_, ?_, ?_, ?_, rfl, by decide, by decide⟩
  · by_cases hc : 1 < c.min_occurrences <;>
      simp [buildConditionSql, conditionEventsSql, minOccWrapSql, hc]
  · by_cases hc : 1 < c.min_occurrences <;>
      simp [buildDrugSql, drugEventsSql, minOccWrapSql, hc]
  · by_cases hc : 1 < c.min_occurrences <;>
      simp [buildProcedureSql, procedureEventsSql, minOccWrapSql, hc]
  · by_cases hc : 1 < c.min_occurrences <;>
      simp [buildVisitSql, visitEventsSql, minOccWrapSql, hc]
  · by_cases hc : 1 < c.min_occurrences <;>
      simp [buildObservationSql, observationEventsSql, minOccWrapSql, hc]

/-- C5: when the executed statement returns more than 1000 subject IDs,
the demographics summary is computed from exactly the first 1000 IDs of
the result, while `patient_count` is the full uncapped number of
returned IDs and `sample_patient_ids` is the first 10 IDs of the full
result in result order. -/
theorem demographics_capped_at_first_thousand {α : Type} (schema : String) (cd : CohortDefinition)
    (execQuery : String → List Int) (g : List Int → α)
    (h : 1000 < (execQuery (buildCohortSql schema cd)).length) :
    (build_cohort schema cd execQuery g).demographics
      = some (g ((execQuery (buildCohortSql schema cd)).take 1000))
    ∧ (build_cohort schema cd execQuery g).patient_count
      = (execQuery (buildCohortSql schema cd)).length
    ∧ (build_cohort schema cd execQuery g).sample_patient_ids
      = (execQuery (buildCohortSql schema cd)).take 10 := by
  have hne : execQuery (buildCohortSql schema cd) ≠ [] := by
    intro h0
    rw [h0] at h
    simp at h
  refine ⟨?_, rfl, ?_⟩ <;> simp [build_cohort, hne]

/-- A result set of 1001 subject IDs. -/
def thousandOneIds : List Int := (List.range 1001).map Int.ofNat

theorem demographics_capped_at_first_thousand_witness :
    1000 < thousandOneIds.length
    ∧ ((build_cohort "s" emptyCohortDefinition (fun _ => thousandOneIds) (fun l => l.length)).demographics
        = some (thousandOneIds.take 1000).length
      ∧ (build_cohort "s" emptyCohortDefinition (fun _ => thousandOneIds) (fun l => l.length)).patient_count
        = thousandOneIds.length
      ∧ (build_cohort "s" emptyCohortDefinition (fun _ => thousandOneIds) (fun l => l.length)).sample_patient_ids
        = thousandOneIds.take 10) :=
  ⟨by simp [thousandOneIds],
   demographics_capped_at_first_thousand "s" emptyCohortDefinition (fun _ => thousandOneIds)
     (fun l => l.length) (by simp [thousandOneIds])⟩

/-- C6: a `CohortDefinition` with no inclusion and no exclusion criteria
assembles to exactly the base-population CTE followed by
`SELECT person_id FROM base_population` — no criterion CTEs, no
`INTERSECT`, no `EXCEPT` — its relational meaning is the full distinct
base population, and `build_cohort` reports the full base-population
count. -/
theorem empty_criteria_full_base_population {α : Type} (schema : String) (cd : CohortDefinition)
    (db : Db) (frag : CriteriaDefinition → List Int) (execQuery : String → List Int)
    (g : List Int → α)
    (h1 : cd.inclusion_criteria = []) (h2 : cd.exclusion_criteria = [])
    (h3 : execQuery (buildCohortSql schema cd) = basePopulationSem db) :
    buildCohortSql schema cd
      = basePopulationCte schema ++ "\nSELECT person_id FROM base_population\n"
    ∧ cohortSem db frag cd = basePopulationSem db
    ∧ (build_cohort schema cd execQuery g).patient_count = (basePopulationSem db).length := by
  refine ⟨?_, ?_, ?_⟩
  · simp [buildCohortSql, h1, h2, inclusionCteParts, exclusionCteParts, intersectClauses,
      exceptClauses, String.append_empty]
  · simp [cohortSem, h1, h2]
  · simp [build_cohort, h3]

theorem empty_criteria_full_base_population_witness :
    emptyCohortDefinition.inclusion_criteria = []
    ∧ emptyCohortDefinition.exclusion_criteria = []
    ∧ (fun _ : String => basePopulationSem twoEventsDb)
        (buildCohortSql "omop_catalog.omop_schema" emptyCohortDefinition)
      = basePopulationSem twoEventsDb
    ∧ (buildCohortSql "omop_catalog.omop_schema" emptyCohortDefinition
        = basePopulationCte "omop_catalog.omop_schema" ++ "\nSELECT person_id FROM base_population\n"
      ∧ cohortSem twoEventsDb (fun _ => []) emptyCohortDefinition = basePopulationSem twoEventsDb
      ∧ (build_cohort "omop_catalog.omop_schema" emptyCohortDefinition
          (fun _ => basePopulationSem twoEventsDb) (fun l => l.length)).patient_count
        = (basePopulationSem twoEventsDb).length) :=
  ⟨rfl, rfl, rfl,
   empty_criteria_full_base_population "omop_catalog.omop_schema" emptyCohortDefinition
     twoEventsDb (fun _ => []) (fun _ => basePopulationSem twoEventsDb) (fun l => l.length)
     rfl rfl rfl⟩

/-- C7: `save_cohort_definition` assigns `max existing id + 1` (an empty
table counting as maximum `0`, so the first save on an empty table gets
id `1`), records the supplied current date as the initiation date, and
two calls in sequence assign strictly increasing ids. -/
theorem save_assigns_sequential_increasing_ids (schema : String)
    (tbl : List CohortDefinitionRow) (req1 req2 : SaveCohortRequest)
    (today1 today2 : String) :
    (save_cohort_definition schema [] req1 today1).response.cohort_definition_id = 1
    ∧ (save_cohort_definition schema tbl req1 today1).response.cohort_definition_id
      = sqlMaxIdOrZero tbl + 1
    ∧ (save_cohort_definition schema tbl req1 today1).response.cohort_initiation_date = today1
    ∧ (save_cohort_definition schema tbl req1 today1).response.cohort_definition_id
      < (save_cohort_definition schema (save_cohort_definition schema tbl req1 today1).table
          req2 today2).response.cohort_definition_id := by
  refine ⟨rfl, rfl, rfl, ?_⟩
  have h := le_sqlMaxIdOrZero_append_singleton tbl
    { cohort_definition_id := sqlMaxIdOrZero tbl + 1
      cohort_definition_name := req1.cohort_definition_name
      cohort_definition_description := req1.cohort_definition_description
      definition_type_concept_id := sqlMaxIdOrZero tbl + 1
      cohort_definition_sqltext := req1.cohort_definition_sqltext
      subject_concept_id := sqlMaxIdOrZero tbl + 1
      cohort_initiation_date := today1 }
  show sqlMaxIdOrZero tbl + 1
    < sqlMaxIdOrZero (tbl ++
        [{ cohort_definition_id := sqlMaxIdOrZero tbl + 1
           cohort_definition_name := req1.cohort_definition_name
           cohort_definition_description := req1.cohort_definition_description
           definition_type_concept_id := sqlMaxIdOrZero tbl + 1
           cohort_definition_sqltext := req1.cohort_definition_sqltext
           subject_concept_id := sqlMaxIdOrZero tbl + 1
           cohort_initiation_date := today1 }]) + 1
  exact add_lt_add_right (Int.lt_iff_add_one_le.mpr h) 1

/-- C8 counterexample: on a zero-subject result `build_cohort` succeeds
with count `0` and an empty sample, but its demographics field is
`None` — not a demographics summary of empty distributions. -/
theorem empty_result_demographics_is_none :
    build_cohort "omop_catalog.omop_schema" emptyCohortDefinition
        (fun _ => ([] : List Int)) (fun _ => emptyDistributionsSummary)
      = { patient_count := 0
          demographics := none
          sample_patient_ids := []
          sql_query := buildCohortSql "omop_catalog.omop_schema" emptyCohortDefinition }
    ∧ (build_cohort "omop_catalog.omop_schema" emptyCohortDefinition
        (fun _ => ([] : List Int)) (fun _ => emptyDistributionsSummary)).demographics
      ≠ some emptyDistributionsSummary := by
  refine ⟨rfl, by simp [build_cohort]⟩

/-- C8 (amended): a zero-subject result is not an error — `build_cohort`
returns count `0`, an empty sample list, and no demographics summary at
all (the demographics field is `None`; the demographics collaborator is
never invoked on the empty set). -/
theorem empty_result_reports_zero_without_error {α : Type} (schema : String)
    (cd : CohortDefinition) (execQuery : String → List Int) (g : List Int → α)
    (h : execQuery (buildCohortSql schema cd) = []) :
    build_cohort schema cd execQuery g
      = { patient_count := 0
          demographics := none
          sample_patient_ids := []
          sql_query := buildCohortSql schema cd } := by
  simp [build_cohort, h]

theorem empty_result_reports_zero_without_error_witness :
    (fun _ : String => ([] : List Int)) (buildCohortSql "s" emptyCohortDefinition) = []
    ∧ build_cohort "s" emptyCohortDefinition (fun _ => ([] : List Int)) (fun l => l.length)
      = { patient_count := 0
          demographics := none
          sample_patient_ids := []
          sql_query := buildCohortSql "s" emptyCohortDefinition } :=
  ⟨rfl,
   empty_result_reports_zero_without_error "s" emptyCohortDefinition
     (fun _ => ([] : List Int)) (fun l => l.length) rfl⟩

/-- C9 counterexample: the compiled fragment of a plain condition
criterion is not duplicate-free — a subject with two qualifying event
rows appears twice in the fragment's result. -/
theorem condition_fragment_contains_duplicates :
    conditionFragSem twoEventsDb simpleConditionCriterion = [1, 1, 2]
    ∧ ¬ (conditionFragSem twoEventsDb simpleConditionCriterion).Nodup := by
  refine ⟨by decide, by decide⟩

/-- C9 (amended): a compiled fragment selects a single column of subject
IDs but may repeat a subject (one output row per qualifying event row
when `min_occurrences = 1`); distinctness holds for the assembled
statement as a whole — whatever rows the criterion CTEs produce — and
for a fragment grouped by a `min_occurrences > 1` threshold. -/
theorem assembled_cohort_distinct_fragment_may_repeat (db : Db)
    (frag : CriteriaDefinition → List Int) (cd : CohortDefinition)
    (c : CriteriaDefinition) (h : 1 < c.min_occurrences) :
    (cohortSem db frag cd).Nodup ∧ (conditionFragSem db c).Nodup := by
  refine ⟨cohortSem_nodup db frag cd, ?_⟩
  unfold conditionFragSem
  rw [if_pos h]
  exact (List.nodup_dedup _).filter _

theorem assembled_cohort_distinct_fragment_may_repeat_witness :
    1 < twiceConditionCriterion.min_occurrences
    ∧ ((cohortSem twoEventsDb (fun _ => [1, 1]) sampleCohortDefinition).Nodup
      ∧ (conditionFragSem twoEventsDb twiceConditionCriterion).Nodup) :=
  ⟨by decide,
   assembled_cohort_distinct_fragment_may_repeat twoEventsDb (fun _ => [1, 1])
     sampleCohortDefinition twiceConditionCriterion (by decide)⟩

/-- C10: an age criterion whose operator is none of `Equals`,
`GreaterThan`, `LessThan`, `Between` compiles — without any error — to
the bare age expression with no comparison appended (a dangling `WHERE`
clause, i.e. syntactically invalid SQL). -/
theorem age_unhandled_operator_bare_expression (schema : String) (c : CriteriaDefinition)
    (h0 : c.criteria_type = CriteriaType.age)
    (h1 : c.operator ≠ some OperatorType.equals)
    (h2 : c.operator ≠ some OperatorType.greater_than)
    (h3 : c.operator ≠ some OperatorType.less_than)
    (h4 : c.operator ≠ some OperatorType.between) :
    buildCriteriaSql schema c = ageBaseExprSql schema := by
  unfold buildCriteriaSql
  rw [h0]
  unfold buildAgeSql ageBaseExprSql
  rw [if_neg h1, if_neg h2, if_neg h3, if_neg h4]

theorem age_unhandled_operator_bare_expression_witness :
    notEqualsAgeCriterion.criteria_type = CriteriaType.age
    ∧ notEqualsAgeCriterion.operator ≠ some OperatorType.equals
    ∧ buildCriteriaSql "omop_catalog.omop_schema" notEqualsAgeCriterion
      = ageBaseExprSql "omop_catalog.omop_schema" :=
  ⟨rfl, by decide,
   age_unhandled_operator_bare_expression "omop_catalog.omop_schema" notEqualsAgeCriterion
     rfl (by decide) (by decide) (by decide) (by decide)⟩
